import Mathlib

/-
  Shallow embedding of the SuiMail off-chain service
  (src/fastapi/models.py, src/fastapi/pydantic_models.py, src/fastapi/test.py).

  Tables are lists of row structures mirroring the SQLAlchemy models in
  models.py; request handlers from test.py become functions
  `args → DB → Except ApiError Resp × DB` where the returned DB is the
  post-state (an HTTPException raised before any `db.add`/`db.commit`
  leaves the store unchanged, so error paths return the input DB).

  Python-level faults matter here: `MessageCreate` (pydantic_models.py
  lines 41-46) declares no `content` field and the `MessageWithNFT` table
  (models.py lines 36-47) has no `content` column, yet test.py lines 104
  and 138 read `msg.content`.  Attribute lookup on a pydantic model or a
  SQLAlchemy instance for an undeclared field raises `AttributeError`;
  that access is embedded as an always-failing accessor function, so the
  control flow of the handlers around it is exactly the source's.
-/

namespace SuiMail

/-- A failure escaping a request handler: either an HTTPException carrying a
status code and detail string (FastAPI), or a Python-level exception such as
`AttributeError` from an undeclared attribute.  String details are kept
verbatim where the source gives a literal, and abbreviated to the exception
class name where the source interpolates `str(e)`. -/
inductive ApiError where
  | http (statusCode : Nat) (detail : String)
  | pyAttributeError (attr : String)
  | pyException (msg : String)
  deriving DecidableEq, Repr

/-- Row of the `users` table (models.py lines 12-21). -/
structure UserRow where
  wallet_address : String
  username : String
  display_name : String
  bio : String
  avatar_cid : String
  deriving DecidableEq, Repr

/-- Row of the `mailboxes` table (models.py lines 24-33). -/
structure MailboxRow where
  id : Nat
  mailbox_id : String
  owner_wallet : String
  deriving DecidableEq, Repr

/-- Row of the `mailbox_registry` table (models.py lines 62-70). -/
structure MailboxRegistryRow where
  id : Nat
  owner_wallet : String
  mailbox_id : String
  deriving DecidableEq, Repr

/-- Row of the `messages_with_nft` table (models.py lines 36-47).  Note the
columns: id, sender, receiver, cid, timestamp, nft_object_id, claim_price,
mailbox_id — there is no `content` column. -/
structure MessageWithNFTRow where
  id : Nat
  sender : String
  receiver : String
  cid : String
  timestamp : Int
  nft_object_id : Option String
  claim_price : Option Int
  mailbox_id : String
  deriving DecidableEq, Repr

/-- Row of the plain `messages` table (models.py lines 50-59). -/
structure MessageRow where
  id : Nat
  sender : String
  receiver : String
  cid : String
  timestamp : Int
  mailbox_id : String
  deriving DecidableEq, Repr

/-- Row of the `kiosks` table (models.py lines 73-78). -/
structure KioskRow where
  id : Nat
  kiosk_id : String
  owner_wallet : String
  deriving DecidableEq, Repr

/-- Row of the `kiosk_items` table (models.py lines 81-89). -/
structure KioskItemRow where
  id : Nat
  item_id : String
  kiosk_id : String
  title : String
  content_cid : String
  price : Int
  deriving DecidableEq, Repr

/-- The relational store: one list per table of models.py. -/
structure DB where
  users : List UserRow
  mailboxes : List MailboxRow
  mailbox_registry : List MailboxRegistryRow
  messages_with_nft : List MessageWithNFTRow
  messages : List MessageRow
  kiosks : List KioskRow
  kiosk_items : List KioskItemRow
  deriving DecidableEq, Repr

/-- The empty store. -/
def emptyDB : DB :=
  { users := [], mailboxes := [], mailbox_registry := [],
    messages_with_nft := [], messages := [], kiosks := [], kiosk_items := [] }

/-- test.py line 19: declared JWT expiry window.  The constant is never used
by `login` below, exactly as in the source, where no `exp` claim is ever put
into a token. -/
def ACCESS_TOKEN_EXPIRE_MINUTES : Nat := 60

/-- Claims carried by a JWT issued and verified by this service.  Since the
process uses one fixed secret for both signing and verification, a token this
server accepts is one it issued, so tokens are modelled as their payloads. -/
structure JwtClaims where
  sub : Option String
  exp : Option Int
  deriving DecidableEq, Repr

/-- Model of `jwt.decode(token, SECRET_KEY, algorithms=[ALGORITHM])` at
wall-clock time `now` (seconds): the jose library rejects a token whose `exp`
claim, when present, is not in the future; with no `exp` claim no expiry
check happens. -/
def jwt_decode (token : JwtClaims) (now : Int) : Except Unit JwtClaims :=
  match token.exp with
  | some e => if e ≤ now then .error () else .ok token
  | none => .ok token

/-- test.py lines 38-49 (`get_current_user`): decode the bearer token, read
its `sub`, and look the wallet address up in `users`; any JWTError, missing
subject, or unknown user yields 401. -/
def get_current_user (token : JwtClaims) (now : Int) (db : DB) :
    Except ApiError UserRow :=
  match jwt_decode token now with
  | .error _ => .error (.http 401 "Could not validate credentials")
  | .ok payload =>
    match payload.sub with
    | none => .error (.http 401 "Invalid token")
    | some wallet_address =>
      match db.users.find? (fun u => u.wallet_address == wallet_address) with
      | none => .error (.http 401 "User not found")
      | some user => .ok user

/-- test.py lines 52-59 (`login`, POST /auth/token): the handler takes only a
wallet address, rejects unregistered addresses with 401, and otherwise signs
`{"sub": wallet_address}` — note that no `exp` claim is included. -/
def login (wallet_address : String) (db : DB) : Except ApiError JwtClaims × DB :=
  match db.users.find? (fun u => u.wallet_address == wallet_address) with
  | none => (.error (.http 401 "User not registered"), db)
  | some _ => (.ok { sub := some wallet_address, exp := none }, db)

/-- Request body of POST /register (pydantic_models.py lines 14-19). -/
structure UserCreate where
  wallet_address : String
  username : String
  display_name : String
  bio : String
  avatar_cid : String
  deriving DecidableEq, Repr

/-- test.py lines 62-71 (`register_user`, POST /register): reject with 400 if
a user with the wallet address exists, otherwise insert the row. -/
def register_user (user : UserCreate) (db : DB) : Except ApiError String × DB :=
  match db.users.find? (fun u => u.wallet_address == user.wallet_address) with
  | some _ => (.error (.http 400 "User already registered"), db)
  | none =>
    let db_user : UserRow :=
      { wallet_address := user.wallet_address, username := user.username,
        display_name := user.display_name, bio := user.bio,
        avatar_cid := user.avatar_cid }
    (.ok "User registered successfully", { db with users := db.users ++ [db_user] })

/-- Request body of POST /create_mailbox (pydantic_models.py lines 30-32). -/
structure MailboxCreate where
  mailbox_id : String
  owner_wallet : String
  deriving DecidableEq, Repr

/-- test.py lines 85-94 (`create_mailbox`, POST /create_mailbox): reject with
400 if the mailbox_id is taken, otherwise insert the Mailbox row.  The
autoincrement primary key is modelled as the current table length.  Nothing
in the handler reads or writes `mailbox_registry`. -/
def create_mailbox (mailbox : MailboxCreate) (db : DB) : Except ApiError String × DB :=
  match db.mailboxes.find? (fun m => m.mailbox_id == mailbox.mailbox_id) with
  | some _ => (.error (.http 400 "Mailbox already exists"), db)
  | none =>
    let db_mailbox : MailboxRow :=
      { id := db.mailboxes.length, mailbox_id := mailbox.mailbox_id,
        owner_wallet := mailbox.owner_wallet }
    (.ok "Mailbox created successfully",
     { db with mailboxes := db.mailboxes ++ [db_mailbox] })

/-- Request body of POST /store_message (pydantic_models.py lines 41-46,
`MessageCreate`): exactly the fields sender, receiver, cid, timestamp,
mailbox_id.  In particular there is no `content`, `nft_object_id` or
`claim_price` field. -/
structure MessageCreate where
  sender : String
  receiver : String
  cid : String
  timestamp : Int
  mailbox_id : String
  deriving DecidableEq, Repr

/-- The attribute lookup `msg.content` performed by test.py line 104:
`MessageCreate` declares no `content` field, so on a pydantic model the
access raises `AttributeError`. -/
def MessageCreate.content_attr (_ : MessageCreate) : Except ApiError String :=
  .error (.pyAttributeError "content")

/-- The JSON body a client sends to POST /store_message, with the optional
NFT fields a `MessageWithNFTCreate`-shaped client would include. -/
structure StoreMessageRequest where
  sender : String
  receiver : String
  cid : String
  timestamp : Int
  mailbox_id : String
  nft_object_id : Option String
  claim_price : Option Int
  deriving DecidableEq, Repr

/-- FastAPI parses the request body into the handler's declared model
`MessageCreate`; pydantic v1 silently ignores fields the model does not
declare, so `nft_object_id` and `claim_price` are dropped. -/
def parse_message_create (r : StoreMessageRequest) : MessageCreate :=
  { sender := r.sender, receiver := r.receiver, cid := r.cid,
    timestamp := r.timestamp, mailbox_id := r.mailbox_id }

/-- test.py lines 97-124 (`store_message`, POST /store_message): empty cid is
rejected with 400; then the try-block at lines 102-109 evaluates
`msg.content`, whose `AttributeError` is caught by `except Exception` and
re-raised as a 500 with detail built from the exception.  Were that access to
succeed, evaluating the constructor arguments at line 118 would next read
`msg.nft_object_id`, also undeclared on `MessageCreate`, outside any
try-block.  No branch reaches `db.add`, and no branch checks that
`mailbox_id` references an existing mailbox. -/
def store_message (msg : MessageCreate) (db : DB) : Except ApiError String × DB :=
  if msg.cid == "" then
    (.error (.http 400 "CID cannot be empty"), db)
  else
    match msg.content_attr with
    | .error _ =>
      (.error (.http 500 "Error encrypting message content: AttributeError"), db)
    | .ok _ =>
      (.error (.pyAttributeError "nft_object_id"), db)

/-- One element of the response list built by test.py lines 139-149. -/
structure MessageView where
  id : Nat
  sender : String
  receiver : String
  cid : String
  content : Option String
  timestamp : Int
  nft_object_id : Option String
  claim_price : Option Int
  mailbox_id : String
  deriving DecidableEq, Repr

/-- The attribute lookup `msg.content` performed by test.py line 138 on a row
of `messages_with_nft`: the `MessageWithNFT` model (models.py lines 36-47)
maps no `content` column, so the access raises `AttributeError`. -/
def MessageWithNFTRow.content_attr (_ : MessageWithNFTRow) :
    Except ApiError String :=
  .error (.pyAttributeError "content")

/-- Model of `cipher.decrypt(c.encode()).decode()` for the process-local
Fernet cipher: ciphertext this process produced decrypts back; anything else
raises. -/
def fernet_decrypt (ciphertext : String) : Except ApiError String :=
  if ciphertext.startsWith "fernet:" then .ok (ciphertext.drop 7)
  else .error (.pyException "InvalidToken")

/-- The body of the per-record loop of test.py lines 135-154: inside the
try-block, `msg.content` is read (always an `AttributeError` here), the
content is decrypted when truthy, and the view object is built; any exception
is caught at line 150 and re-raised as HTTPException 500, which aborts the
whole request. -/
def render_message (msg : MessageWithNFTRow) : Except ApiError MessageView :=
  match msg.content_attr with
  | .error _ =>
    .error (.http 500 "Error decrypting message content: AttributeError")
  | .ok stored =>
    let decrypted :=
      if stored == "" then Except.ok (Option.none)
      else match fernet_decrypt stored with
        | .error _ =>
          Except.error
            (ApiError.http 500 "Error decrypting message content: InvalidToken")
        | .ok plain => Except.ok (some plain)
    match decrypted with
    | .error e => .error e
    | .ok c =>
      .ok { id := msg.id, sender := msg.sender, receiver := msg.receiver,
            cid := msg.cid, content := c, timestamp := msg.timestamp,
            nft_object_id := msg.nft_object_id, claim_price := msg.claim_price,
            mailbox_id := msg.mailbox_id }

/-- The response-building loop of test.py lines 134-154, processing the
queried rows in order; the first failing record raises out of the handler. -/
def build_response : List MessageWithNFTRow → Except ApiError (List MessageView)
  | [] => .ok []
  | msg :: rest =>
    match render_message msg with
    | .error e => .error e
    | .ok v =>
      match build_response rest with
      | .error e => .error e
      | .ok vs => .ok (v :: vs)

/-- test.py lines 127-156 (`get_messages`, GET /messages): authenticate, then
query `messages_with_nft` for rows whose sender or receiver equals the
caller's wallet address (the plain `messages` table is not queried), then
build the response list record by record. -/
def get_messages (token : JwtClaims) (now : Int) (db : DB) :
    Except ApiError (List MessageView) :=
  match get_current_user token now db with
  | .error e => .error e
  | .ok current_user =>
    build_response (db.messages_with_nft.filter
      (fun m => m.sender == current_user.wallet_address
             || m.receiver == current_user.wallet_address))

/-- test.py lines 215-218 (`get_store_items`, GET /store/\x7bkiosk_id\x7d):
return every kiosk_items row with the given kiosk_id. -/
def get_store_items (kiosk_id : String) (db : DB) : List KioskItemRow :=
  db.kiosk_items.filter (fun i => i.kiosk_id == kiosk_id)

/-- test.py lines 221-233 (`delete_kiosk_item`, DELETE
/delete_kiosk_item/\x7bitem_id\x7d): authenticate; 404 if no kiosk_items row
has the item_id; 403 unless some kiosks row has the item's kiosk_id with the
caller as owner_wallet; otherwise `db.delete(item)` removes the found row —
modelled as dropping the rows carrying its primary key. -/
def delete_kiosk_item (item_id : String) (token : JwtClaims) (now : Int)
    (db : DB) : Except ApiError String × DB :=
  match get_current_user token now db with
  | .error e => (.error e, db)
  | .ok current_user =>
    match db.kiosk_items.find? (fun i => i.item_id == item_id) with
    | none => (.error (.http 404 "Item not found"), db)
    | some item =>
      match db.kiosks.find? (fun k =>
          k.kiosk_id == item.kiosk_id
          && k.owner_wallet == current_user.wallet_address) with
      | none => (.error (.http 403 "Not authorized to delete this item"), db)
      | some _ =>
        (.ok "Item deleted successfully",
         { db with kiosk_items := db.kiosk_items.filter (fun i => i.id != item.id) })

/-- Concrete registered user for the scenarios below. -/
def userA : UserRow :=
  { wallet_address := "0xA", username := "alice", display_name := "Alice",
    bio := "hi", avatar_cid := "avA" }

/-- A second concrete registered user. -/
def userB : UserRow :=
  { wallet_address := "0xB", username := "bob", display_name := "Bob",
    bio := "yo", avatar_cid := "avB" }

/-- Claim C2, counterexample: a successful `create_mailbox` on the empty
store leaves a Mailbox row for owner 0xA while `mailbox_registry` stays
empty, so a Mailbox row exists with no matching MailboxRegistry row. -/
theorem create_mailbox_leaves_registry_empty :
    (create_mailbox { mailbox_id := "m1", owner_wallet := "0xA" } emptyDB).1
      = Except.ok "Mailbox created successfully"
    ∧ ((create_mailbox { mailbox_id := "m1", owner_wallet := "0xA" } emptyDB).2).mailboxes
      = [{ id := 0, mailbox_id := "m1", owner_wallet := "0xA" }]
    ∧ ((create_mailbox { mailbox_id := "m1", owner_wallet := "0xA" } emptyDB).2).mailbox_registry
      = [] :=
  ⟨rfl, rfl, rfl⟩

/-- Claim C2 (amended): `create_mailbox` never writes the registry — the
`mailbox_registry` table is unchanged by every call (and no handler deletes
mailboxes or writes the registry at all), so the create/delete pairing
invariant between Mailbox and MailboxRegistry is not maintained. -/
theorem create_mailbox_registry_unchanged (mailbox : MailboxCreate) (db : DB) :
    ((create_mailbox mailbox db).2).mailbox_registry = db.mailbox_registry := by
  unfold create_mailbox
  cases db.mailboxes.find? (fun m => m.mailbox_id == mailbox.mailbox_id) <;> rfl

/-- Claim C3, code bug: `login` puts no `exp` claim into the token it signs
(test.py line 58), although `ACCESS_TOKEN_EXPIRE_MINUTES = 60` is declared at
line 19; so a token for 0xA issued at time 0 is still accepted by the
authentication dependency 3660 seconds (61 minutes) later instead of being
rejected with 401. -/
theorem token_accepted_after_expiry_window :
    (login "0xA" { emptyDB with users := [userA] }).1
      = Except.ok { sub := some "0xA", exp := none }
    ∧ get_current_user { sub := some "0xA", exp := none } 3660
        { emptyDB with users := [userA] }
      = Except.ok userA :=
  ⟨rfl, rfl⟩

/-- Claim C4, counterexample: storing a message whose mailbox_id references
no existing mailbox (the store is empty) fails with status 500 from the
content attribute access, not with NotFound (404): the handler never checks
mailbox existence. -/
theorem store_message_missing_mailbox_not_notfound :
    store_message
      { sender := "0xA", receiver := "0xB", cid := "Qm123", timestamp := 1000,
        mailbox_id := "nomailbox" } emptyDB
    = (Except.error (ApiError.http 500 "Error encrypting message content: AttributeError"),
       emptyDB) :=
  rfl

/-- Claim C4 (amended): `store_message` performs no mailbox-existence check
and never fails with NotFound; every call fails before any write — 400 when
the cid is empty, otherwise 500 from reading the undeclared `content`
attribute — and leaves the store unchanged, so no message row is ever
created (in particular none for a nonexistent mailbox_id). -/
theorem store_message_always_fails (msg : MessageCreate) (db : DB) :
    store_message msg db
      = (Except.error (ApiError.http 400 "CID cannot be empty"), db)
    ∨ store_message msg db
      = (Except.error (ApiError.http 500 "Error encrypting message content: AttributeError"),
         db) := by
  unfold store_message
  cases h : msg.cid == "" with
  | true => left; simp [h]
  | false => right; simp [h, MessageCreate.content_attr]

/-- Claim C5, counterexample: a request with `nft_object_id` set and
`claim_price` absent (all other fields well-formed, the mailbox existing) is
not rejected with ValidationError (400): the fields are dropped when the body
is parsed into `MessageCreate`, and the call fails with status 500 like every
other call with a non-empty cid. -/
theorem store_message_one_nft_field_not_validation :
    store_message
      (parse_message_create
        { sender := "0xA", receiver := "0xB", cid := "Qm123", timestamp := 1000,
          mailbox_id := "mbx1", nft_object_id := some "0xNFT", claim_price := none })
      { emptyDB with mailboxes := [{ id := 0, mailbox_id := "mbx1", owner_wallet := "0xA" }] }
    = (Except.error (ApiError.http 500 "Error encrypting message content: AttributeError"),
       { emptyDB with mailboxes := [{ id := 0, mailbox_id := "mbx1", owner_wallet := "0xA" }] }) :=
  rfl

/-- Claim C5 (amended): a store_message request carrying exactly one of
`nft_object_id`, `claim_price` is never rejected with a ValidationError for
inconsistent NFT fields — no such check exists and `MessageCreate` does not
even declare the fields; the call fails with 400 (empty cid) or 500 (content
attribute access) and persists nothing. -/
theorem store_message_one_nft_field_fails (r : StoreMessageRequest) (db : DB)
    (_h : r.nft_object_id.isSome ≠ r.claim_price.isSome) :
    store_message (parse_message_create r) db
      = (Except.error (ApiError.http 400 "CID cannot be empty"), db)
    ∨ store_message (parse_message_create r) db
      = (Except.error (ApiError.http 500 "Error encrypting message content: AttributeError"),
         db) := by
  unfold store_message
  cases hc : (parse_message_create r).cid == "" with
  | true => left; simp [hc]
  | false => right; simp [hc, MessageCreate.content_attr]

/-- Claim C5, witness for the amended theorem at a concrete request. -/
theorem store_message_one_nft_field_fails_witness :
    ((some "0xNFT" : Option String).isSome ≠ (none : Option Int).isSome)
    ∧ (store_message
        (parse_message_create
          { sender := "0xA", receiver := "0xB", cid := "Qm123", timestamp := 1000,
            mailbox_id := "mbx1", nft_object_id := some "0xNFT", claim_price := none })
        emptyDB
        = (Except.error (ApiError.http 400 "CID cannot be empty"), emptyDB)
      ∨ store_message
          (parse_message_create
            { sender := "0xA", receiver := "0xB", cid := "Qm123", timestamp := 1000,
              mailbox_id := "mbx1", nft_object_id := some "0xNFT", claim_price := none })
          emptyDB
        = (Except.error (ApiError.http 500 "Error encrypting message content: AttributeError"),
           emptyDB)) :=
  ⟨by decide,
   store_message_one_nft_field_fails
     { sender := "0xA", receiver := "0xB", cid := "Qm123", timestamp := 1000,
       mailbox_id := "mbx1", nft_object_id := some "0xNFT", claim_price := none }
     emptyDB (by decide)⟩

/-- Claim C6, counterexample: `login` takes no credential input at all
(test.py line 53) and issues a session token to any caller naming a
registered wallet address; in particular a caller holding an invalid
credential for registered address 0xB receives a token, refuting that a
token is returned only for a valid credential. -/
theorem login_issues_token_without_credential :
    login "0xB" { emptyDB with users := [userB] }
    = (Except.ok { sub := some "0xB", exp := none },
       { emptyDB with users := [userB] }) :=
  rfl

/-- Claim C6 (amended): `login` verifies no credential: whenever the wallet
address is registered, the call returns a token bearing that address as
subject, unconditionally; only unregistered addresses are rejected (401).
The User table stores no credential at all. -/
theorem login_succeeds_for_any_registered_address (w : String) (db : DB)
    (u : UserRow) (h : db.users.find? (fun x => x.wallet_address == w) = some u) :
    login w db = (Except.ok { sub := some w, exp := none }, db) := by
  unfold login
  rw [h]

/-- Claim C6, witness for the amended theorem at a concrete store. -/
theorem login_succeeds_for_any_registered_address_witness :
    ({ emptyDB with users := [userA] } : DB).users.find?
        (fun x => x.wallet_address == "0xA") = some userA
    ∧ login "0xA" { emptyDB with users := [userA] }
      = (Except.ok { sub := some "0xA", exp := none }, { emptyDB with users := [userA] }) :=
  ⟨rfl, login_succeeds_for_any_registered_address "0xA" { emptyDB with users := [userA] }
          userA rfl⟩

/-- A stored NFT-capable message row between 0xA and 0xB. -/
def msg1 : MessageWithNFTRow :=
  { id := 1, sender := "0xA", receiver := "0xB", cid := "Qm1", timestamp := 1000,
    nft_object_id := none, claim_price := none, mailbox_id := "m1" }

/-- Store holding registered user 0xA and one stored message involving 0xA. -/
def dbMsgs : DB := { emptyDB with users := [userA], messages_with_nft := [msg1] }

/-- Claim C1, counterexample: with one stored record matching the
authenticated caller 0xA, the listing does not return the record flagged as
undecrypted — the whole request aborts with HTTP 500 (reading the record's
content fails, the per-record `except` re-raises, and no partial list is
produced). -/
theorem get_messages_listing_never_completes :
    get_messages { sub := some "0xA", exp := none } 0 dbMsgs
      = Except.error (ApiError.http 500 "Error decrypting message content: AttributeError") :=
  rfl

/-- Claim C1 (amended): the listing is fail-fast, not fail-partial: whenever
the caller authenticates and at least one stored record matches them, the
per-record failure (here: the content read, which always fails because the
table has no content column) aborts the whole listing with HTTP 500; the
failing record is not returned with an error flag. -/
theorem get_messages_aborts_on_record_failure (token : JwtClaims) (now : Int)
    (db : DB) (user : UserRow) (m : MessageWithNFTRow)
    (rest : List MessageWithNFTRow)
    (hauth : get_current_user token now db = Except.ok user)
    (hq : db.messages_with_nft.filter
        (fun x => x.sender == user.wallet_address || x.receiver == user.wallet_address)
      = m :: rest) :
    get_messages token now db
      = Except.error (ApiError.http 500 "Error decrypting message content: AttributeError") := by
  simp only [get_messages, hauth, hq]
  rfl

/-- Claim C1, witness for the amended theorem at a concrete store. -/
theorem get_messages_aborts_on_record_failure_witness :
    get_current_user { sub := some "0xA", exp := none } 0 dbMsgs = Except.ok userA
    ∧ dbMsgs.messages_with_nft.filter
        (fun x => x.sender == userA.wallet_address || x.receiver == userA.wallet_address)
      = [msg1]
    ∧ get_messages { sub := some "0xA", exp := none } 0 dbMsgs
      = Except.error (ApiError.http 500 "Error decrypting message content: AttributeError") :=
  ⟨rfl, rfl,
   get_messages_aborts_on_record_failure { sub := some "0xA", exp := none } 0 dbMsgs
     userA msg1 [] rfl rfl⟩

/-- A third registered user, for the listing claims. -/
def userC : UserRow :=
  { wallet_address := "0xC", username := "cora", display_name := "Cora",
    bio := "c", avatar_cid := "avC" }

/-- An NFT-capable stored message sent by 0xC. -/
def msgC : MessageWithNFTRow :=
  { id := 7, sender := "0xC", receiver := "0xB", cid := "Qm7", timestamp := 7,
    nft_object_id := some "0xNFT7", claim_price := some 9, mailbox_id := "m7" }

/-- A plain stored message (the `messages` table) sent by 0xC. -/
def plainC : MessageRow :=
  { id := 8, sender := "0xC", receiver := "0xB", cid := "Qm8", timestamp := 8,
    mailbox_id := "m7" }

/-- Claim C7, code bug: the listing for 0xC neither returns the NFT-bearing
message in which 0xC is the sender (it aborts with HTTP 500 because the
handler reads a content attribute the table does not have), nor ever returns
plain messages (the handler queries only `messages_with_nft`, so with a
stored plain message from 0xC the response is the empty list). -/
theorem get_messages_does_not_list_participant_messages :
    get_messages { sub := some "0xC", exp := none } 0
        { emptyDB with users := [userC], messages_with_nft := [msgC] }
      = Except.error (ApiError.http 500 "Error decrypting message content: AttributeError")
    ∧ get_messages { sub := some "0xC", exp := none } 0
        { emptyDB with users := [userC], messages := [plainC] }
      = Except.ok [] :=
  ⟨rfl, rfl⟩

/-- Store holding the mailbox `mbx1`, so a store_message request naming it is
well-formed. -/
def dbMbx : DB :=
  { emptyDB with mailboxes := [{ id := 0, mailbox_id := "mbx1", owner_wallet := "0xA" }] }

/-- Claim C10, code bug: a fully well-formed request (non-empty cid, existing
mailbox) does not reach a persist: the handler's read of `msg.content`
(undeclared on `MessageCreate`) raises, is caught, and the call fails with
HTTP 500 leaving the store unchanged — so no request can ever result in a
persisted message row. -/
theorem store_message_well_formed_request_fails :
    store_message
      { sender := "0xA", receiver := "0xB", cid := "Qm123", timestamp := 1000,
        mailbox_id := "mbx1" } dbMbx
    = (Except.error (ApiError.http 500 "Error encrypting message content: AttributeError"),
       dbMbx) :=
  rfl

/-- `register_user` on a store already holding the wallet address: 400,
store unchanged. -/
theorem register_user_exists_eq (u : UserCreate) (db : DB) (w : UserRow)
    (h : db.users.find? (fun x => x.wallet_address == u.wallet_address) = some w) :
    register_user u db
      = (Except.error (ApiError.http 400 "User already registered"), db) := by
  unfold register_user
  rw [h]

/-- `register_user` on a store not holding the wallet address: success, the
row built from the request appended to `users`. -/
theorem register_user_fresh_eq (u : UserCreate) (db : DB)
    (h : db.users.find? (fun x => x.wallet_address == u.wallet_address) = none) :
    register_user u db
      = (Except.ok "User registered successfully",
         { db with users := db.users ++
             [{ wallet_address := u.wallet_address, username := u.username,
                display_name := u.display_name, bio := u.bio,
                avatar_cid := u.avatar_cid }] }) := by
  unfold register_user
  rw [h]

/-- Claim C8: registering the same wallet address a second time fails with
400 "User already registered", the second call leaves the store unchanged,
and the user row holding the profile fields of the first registration is
still the one found for that wallet address. -/
theorem register_user_second_call_rejected (u u2 : UserCreate) (db db1 : DB)
    (m : String)
    (h1 : register_user u db = (Except.ok m, db1))
    (h2 : u2.wallet_address = u.wallet_address) :
    register_user u2 db1
      = (Except.error (ApiError.http 400 "User already registered"), db1)
    ∧ db1.users.find? (fun r => r.wallet_address == u.wallet_address)
      = some { wallet_address := u.wallet_address, username := u.username,
               display_name := u.display_name, bio := u.bio,
               avatar_cid := u.avatar_cid } := by
  cases hfind : db.users.find? (fun x => x.wallet_address == u.wallet_address) with
  | some w =>
    rw [register_user_exists_eq u db w hfind] at h1
    simp at h1
  | none =>
    rw [register_user_fresh_eq u db hfind, Prod.mk.injEq] at h1
    obtain ⟨-, hdb⟩ := h1
    have hrow : db1.users = db.users ++
        [{ wallet_address := u.wallet_address, username := u.username,
           display_name := u.display_name, bio := u.bio,
           avatar_cid := u.avatar_cid }] := by
      rw [← hdb]
    have hfind2 : db1.users.find? (fun r => r.wallet_address == u.wallet_address)
        = some { wallet_address := u.wallet_address, username := u.username,
                 display_name := u.display_name, bio := u.bio,
                 avatar_cid := u.avatar_cid } := by
      rw [hrow, List.find?_append, hfind]
      simp [List.find?]
    refine ⟨?_, hfind2⟩
    apply register_user_exists_eq u2 db1
      { wallet_address := u.wallet_address, username := u.username,
        display_name := u.display_name, bio := u.bio, avatar_cid := u.avatar_cid }
    rw [h2]
    exact hfind2

/-- Request used to exercise claim C8 concretely. -/
def ucD : UserCreate :=
  { wallet_address := "0xD", username := "dora", display_name := "Dora",
    bio := "d", avatar_cid := "avD" }

/-- The user row `register_user` builds from `ucD`. -/
def rowD : UserRow :=
  { wallet_address := "0xD", username := "dora", display_name := "Dora",
    bio := "d", avatar_cid := "avD" }

/-- Store state after registering `ucD` into the empty store. -/
def dbD : DB := { emptyDB with users := [rowD] }

/-- Claim C8, witness at a concrete double registration. -/
theorem register_user_second_call_rejected_witness :
    register_user ucD emptyDB = (Except.ok "User registered successfully", dbD)
    ∧ ucD.wallet_address = ucD.wallet_address
    ∧ (register_user ucD dbD
        = (Except.error (ApiError.http 400 "User already registered"), dbD)
       ∧ dbD.users.find? (fun r => r.wallet_address == ucD.wallet_address)
         = some { wallet_address := ucD.wallet_address, username := ucD.username,
                  display_name := ucD.display_name, bio := ucD.bio,
                  avatar_cid := ucD.avatar_cid }) :=
  ⟨rfl, rfl,
   register_user_second_call_rejected ucD ucD emptyDB dbD
     "User registered successfully" rfl rfl⟩

/-- `get_current_user` reads only the `users` table, so it is unchanged by
mutations of any other table. -/
theorem get_current_user_congr (token : JwtClaims) (now : Int) (db db2 : DB)
    (h : db2.users = db.users) :
    get_current_user token now db2 = get_current_user token now db := by
  unfold get_current_user
  rw [h]

/-- Claim C9: with an authenticated requester and an existing item (item
identifiers and primary keys consistent as the unique columns guarantee), a
requester who does not own the containing kiosk gets 403 and the store is
untouched; the kiosk's owner gets a successful deletion after which no
kiosk_items row with that item_id remains, the store listing for the kiosk no
longer contains it, and repeating the deletion finds nothing (404). -/
theorem delete_kiosk_item_owner_only (item_id : String) (token : JwtClaims)
    (now : Int) (db : DB) (requester : UserRow) (item : KioskItemRow)
    (hauth : get_current_user token now db = Except.ok requester)
    (hitem : db.kiosk_items.find? (fun i => i.item_id == item_id) = some item)
    (hpk : ∀ i ∈ db.kiosk_items, i.item_id = item.item_id → i.id = item.id) :
    (db.kiosks.find? (fun k => k.kiosk_id == item.kiosk_id
        && k.owner_wallet == requester.wallet_address) = none →
      delete_kiosk_item item_id token now db
        = (Except.error (ApiError.http 403 "Not authorized to delete this item"), db))
    ∧ ((db.kiosks.find? (fun k => k.kiosk_id == item.kiosk_id
        && k.owner_wallet == requester.wallet_address)).isSome →
      (delete_kiosk_item item_id token now db).1 = Except.ok "Item deleted successfully"
      ∧ ((delete_kiosk_item item_id token now db).2).kiosk_items.find?
          (fun i => i.item_id == item_id) = none
      ∧ (get_store_items item.kiosk_id
          ((delete_kiosk_item item_id token now db).2)).find?
          (fun i => i.item_id == item_id) = none
      ∧ delete_kiosk_item item_id token now ((delete_kiosk_item item_id token now db).2)
        = (Except.error (ApiError.http 404 "Item not found"),
           (delete_kiosk_item item_id token now db).2)) := by
  have hii : item.item_id = item_id := by simpa using List.find?_some hitem
  have hnone : (db.kiosk_items.filter (fun i => i.id != item.id)).find?
      (fun i => i.item_id == item_id) = none := by
    rw [List.find?_eq_none]
    intro x hx hpx
    obtain ⟨hxmem, hxid⟩ := List.mem_filter.mp hx
    have hpx2 : x.item_id = item_id := by simpa using hpx
    have hx2 : x.item_id = item.item_id := hpx2.trans hii.symm
    have := hpk x hxmem hx2
    simp [this] at hxid
  constructor
  · intro h0
    simp only [delete_kiosk_item, hauth, hitem, h0]
  · intro hs
    obtain ⟨k, hk⟩ := Option.isSome_iff_exists.mp hs
    have hdel : delete_kiosk_item item_id token now db
        = (Except.ok "Item deleted successfully",
           { db with kiosk_items := db.kiosk_items.filter (fun i => i.id != item.id) }) := by
      simp only [delete_kiosk_item, hauth, hitem, hk]
    have hauth2 : get_current_user token now
        { db with kiosk_items := db.kiosk_items.filter (fun i => i.id != item.id) }
        = Except.ok requester :=
      (get_current_user_congr token now db _ rfl).trans hauth
    rw [hdel]
    refine ⟨rfl, hnone, ?_, ?_⟩
    · rw [List.find?_eq_none]
      intro x hx hpx
      have hx2 : x ∈ db.kiosk_items.filter (fun i => i.id != item.id) := by
        simp only [get_store_items] at hx
        exact (List.mem_filter.mp hx).1
      exact List.find?_eq_none.mp hnone x hx2 hpx
    · simp only [delete_kiosk_item, hauth2, hnone]

/-- A concrete kiosk owned by 0xA. -/
def kioskK : KioskRow := { id := 0, kiosk_id := "k1", owner_wallet := "0xA" }

/-- A concrete item stored in kiosk k1. -/
def itemI : KioskItemRow :=
  { id := 0, item_id := "i1", kiosk_id := "k1", title := "t",
    content_cid := "cc", price := 5 }

/-- Store with users 0xA (kiosk owner) and 0xB, one kiosk, one item. -/
def dbK : DB :=
  { emptyDB with users := [userA, userB], kiosks := [kioskK], kiosk_items := [itemI] }

/-- Claim C9, witness at a concrete store, authenticated as the owner 0xA. -/
theorem delete_kiosk_item_owner_only_witness :
    get_current_user { sub := some "0xA", exp := none } 0 dbK = Except.ok userA
    ∧ dbK.kiosk_items.find? (fun i => i.item_id == "i1") = some itemI
    ∧ (∀ i ∈ dbK.kiosk_items, i.item_id = itemI.item_id → i.id = itemI.id)
    ∧ ((dbK.kiosks.find? (fun k => k.kiosk_id == itemI.kiosk_id
          && k.owner_wallet == userA.wallet_address) = none →
        delete_kiosk_item "i1" { sub := some "0xA", exp := none } 0 dbK
          = (Except.error (ApiError.http 403 "Not authorized to delete this item"), dbK))
      ∧ ((dbK.kiosks.find? (fun k => k.kiosk_id == itemI.kiosk_id
          && k.owner_wallet == userA.wallet_address)).isSome →
        (delete_kiosk_item "i1" { sub := some "0xA", exp := none } 0 dbK).1
          = Except.ok "Item deleted successfully"
        ∧ ((delete_kiosk_item "i1" { sub := some "0xA", exp := none } 0 dbK).2).kiosk_items.find?
            (fun i => i.item_id == "i1") = none
        ∧ (get_store_items itemI.kiosk_id
            ((delete_kiosk_item "i1" { sub := some "0xA", exp := none } 0 dbK).2)).find?
            (fun i => i.item_id == "i1") = none
        ∧ delete_kiosk_item "i1" { sub := some "0xA", exp := none } 0
            ((delete_kiosk_item "i1" { sub := some "0xA", exp := none } 0 dbK).2)
          = (Except.error (ApiError.http 404 "Item not found"),
             (delete_kiosk_item "i1" { sub := some "0xA", exp := none } 0 dbK).2))) :=
  ⟨rfl, rfl, by decide,
   delete_kiosk_item_owner_only "i1" { sub := some "0xA", exp := none } 0 dbK
     userA itemI rfl rfl (by decide)⟩

end SuiMail
